import Mathlib

/-
Verification of the tspeg-lib JPEG parsing substrate.

Shallow embedding of:
  src/src/utils/generic.ts        (BitStream)
  src/src/jpeg/markers/base.ts    (JPGMarker, TableMarkerAggregator)
  src/unnamed/part_000            (ToZigZag)
  src/unnamed/part_002            (JPEG_SOIMarker, JPEG_EOIMarker, HuffmanNode,
                                   JPEGHuffmanTree)

JavaScript semantics that matter here and are modelled explicitly:
  - `x << 8` and `x | b` coerce to 32-bit signed integers (toInt32);
  - `offset ? a : b` tests truthiness, so offset 0 takes the `b` branch,
    while `offset ?? p` is nullish and keeps offset 0;
  - `if (this.symbol)` tests truthiness, so a symbol equal to 0 is treated
    as absent;
  - reading past the end of an array yields `undefined` (modelled as none);
  - assigning to an element of `undefined` (a row index outside the matrix)
    throws a TypeError.
-/

namespace TSpeg

/-- Error conditions of the sources: one constructor per distinct throw site
(the bracketed tag in each `throw new Error(...)` message), plus the two
JavaScript runtime errors the code can hit (TypeError when indexing into
`undefined`, RangeError from `Buffer.readUInt8` out of bounds). -/
inductive JSErr where
  | indexOverflow
  | bufferOverflow
  | maxIntegerReached
  | invalidDimension
  | noSuchRecordKey
  | alreadyExists
  | invalidInput
  | typeError
  | rangeError
  deriving DecidableEq, Repr

/-- JavaScript ToInt32: the coercion applied by the bitwise operators
`<<`, `|`, `^`. -/
def toInt32 (x : Int) : Int :=
  let m := x.emod 4294967296
  if m < 2147483648 then m else m - 4294967296

/-- `Number.MAX_SAFE_INTEGER` = 2^53 - 1. -/
def jsMaxSafeInteger : Int := 9007199254740991

/-- `Buffer.readUInt8(i)`: returns the byte at index `i`, RangeError when the
index is out of bounds (Node's bounds-checked read used via `super.readUInt8`).
The stored values are bytes, hence the mod 256. -/
def byteAt (data : List Nat) (i : Int) : Except JSErr Int :=
  if i < 0 then .error .rangeError
  else
    match data.get? i.toNat with
    | some b => .ok ((b % 256 : Nat) : Int)
    | none => .error .rangeError

/-- State of `class BitStream extends Buffer` (src/src/utils/generic.ts):
the underlying byte buffer plus the three private cursor fields, with their
initializers `position = 0`, `currByte = 0`, `byteCounter = 0`. -/
structure BitStream where
  data : List Nat
  position : Int := 0
  currByte : Int := 0
  byteCounter : Int := 0
  deriving DecidableEq, Repr

/-- `BitStream.from(buffer)`: wraps a byte sequence, cursor fields at their
initial values. -/
def BitStream.fromBytes (l : List Nat) : BitStream := { data := l }

/-- `BitStream.getNextBit` (src/src/utils/generic.ts lines 65-80), literally:

    if (this.byteCounter === 0) {
      if (this.position + 1 >= this.length) throw IndexOverflow;
      this.position++;
      this.byteCounter = 8;
      this.currByte = super.readUInt8(this.position);
    }
    const bit = this.currByte >> 7;
    this.byteCounter--;
    this.currByte = (this.currByte << 1) & 0xFF;
    return bit;

`currByte >> 7` is division by 128 (currByte stays in [0,255]), and
`(currByte << 1) & 0xFF` is `(currByte * 2) mod 256`. -/
def BitStream.getNextBit (st : BitStream) : Except JSErr (Int × BitStream) :=
  if st.byteCounter = 0 then
    if st.position + 1 ≥ (st.data.length : Int) then .error .indexOverflow
    else
      match byteAt st.data (st.position + 1) with
      | .error e => .error e
      | .ok b =>
          .ok (b / 128,
               { st with position := st.position + 1, byteCounter := 7,
                         currByte := (b * 2).emod 256 })
  else
    .ok (st.currByte / 128,
         { st with byteCounter := st.byteCounter - 1,
                   currByte := (st.currByte * 2).emod 256 })

/-- Driver: `k` successive `getNextBit` calls, returning the bits read, or the
first error raised. -/
def BitStream.readBits : BitStream → Nat → Except JSErr (List Int)
  | _, 0 => .ok []
  | st, Nat.succ k =>
    match st.getNextBit with
    | .error e => .error e
    | .ok (b, st') =>
      match st'.readBits k with
      | .error e => .error e
      | .ok bs => .ok (b :: bs)

/-- The accumulation loop of `readBytes`:

    for (let idx = 0; idx < n; idx++) {
      const position = (le ? 1 : -1) * (wrap - idx);
      curr_result = (curr_result << 8) | super.readUInt8(curr_position + position);
      if (curr_result > Number.MAX_SAFE_INTEGER) throw MaxIntegerReached;
    }

`(r << 8) | b` with a byte `b` (low 8 bits of the shifted value are 0) equals
`toInt32 (toInt32 r * 256) + b`. -/
def readBytesLoop (data : List Nat) (cp : Int) (le : Bool) (n : Int) :
    Nat → Int → Int → Except JSErr Int
  | 0, _, acc => .ok acc
  | Nat.succ k, idx, acc =>
    let wrap : Int := if le then n - 1 else 0
    let off : Int := (if le then 1 else -1) * (wrap - idx)
    match byteAt data (cp + off) with
    | .error e => .error e
    | .ok b =>
      let acc' := toInt32 (toInt32 acc * 256) + b
      if acc' > jsMaxSafeInteger then .error .maxIntegerReached
      else readBytesLoop data cp le n k (idx + 1) acc'

/-- Line 110 of src/src/utils/generic.ts, with JavaScript truthiness:

    this.position = offset ? this.position : this.position + n;

`offset` is truthy only when it was supplied and is nonzero; when it is
omitted (undefined) or equal to 0, the position advances by `n`. -/
def jsPositionUpdate (offset : Option Int) (position n : Int) : Int :=
  match offset with
  | some o => if o = 0 then position + n else position
  | none => position + n

/-- `BitStream.readBytes(n, offset?, le)` (src/src/utils/generic.ts lines
90-112). `curr_position = offset ?? this.position` (nullish, so offset 0 is
kept as 0); the bounds check is literally

    if (curr_position + n >= this.length) throw BufferOverflow;

then the accumulation loop, then the truthiness-based position update. -/
def BitStream.readBytes (st : BitStream) (n : Int) (offset : Option Int)
    (le : Bool) : Except JSErr (Int × BitStream) :=
  let cp := offset.getD st.position
  if cp + n ≥ (st.data.length : Int) then .error .bufferOverflow
  else
    match readBytesLoop st.data cp le n n.toNat 0 0 with
    | .error e => .error e
    | .ok v => .ok (v, { st with position := jsPositionUpdate offset st.position n })

/-- `readUInt8(offset?)` override: `return this.readBytes(1, offset)`. -/
def BitStream.readUInt8 (st : BitStream) (offset : Option Int) :
    Except JSErr (Int × BitStream) :=
  st.readBytes 1 offset false

/-- `readUInt16BE(offset?)` override: `return this.readBytes(2, offset)`. -/
def BitStream.readUInt16BE (st : BitStream) (offset : Option Int) :
    Except JSErr (Int × BitStream) :=
  st.readBytes 2 offset false

/-- The fields of `abstract class JPGMarker` (src/src/jpeg/markers/base.ts):
name, code, length, and the wrapped buffer. -/
structure JPGMarker where
  name : String
  code : Int
  length : Int
  buffer : BitStream
  deriving DecidableEq, Repr

/-- The `JPGMarker` constructor (src/src/jpeg/markers/base.ts lines 34-46):

    this.buffer = BitStream.from(buffer);
    if (this.buffer.length >= 4) {
      this.length = this.buffer.readUInt16BE(2) + 2;
    } else {
      this.length = 2;
    }

`readUInt16BE(2)` goes through the overridden `readBytes(2, 2)` and can
throw BufferOverflow. -/
def JPGMarker.make (name : String) (code : Int) (buf : List Nat) :
    Except JSErr JPGMarker :=
  let bs := BitStream.fromBytes buf
  if (4 : Int) ≤ (bs.data.length : Int) then
    match bs.readUInt16BE (some 2) with
    | .error e => .error e
    | .ok (v, bs') => .ok { name := name, code := code, length := v + 2, buffer := bs' }
  else
    .ok { name := name, code := code, length := 2, buffer := bs }

/-- `JPGMarker.markerLength` getter: `return this.length`. -/
def JPGMarker.markerLength (m : JPGMarker) : Int := m.length

/-- `JPEG_SOIMarker` constructor (src/unnamed/part_002 lines 10-19): the base
constructor runs first (reading the length field if the buffer has at least
4 bytes), then `decodeSync` sets `this.length = 2`. SOI code is 0xFFD8. -/
def JPEG_SOIMarker.make (buf : List Nat) : Except JSErr JPGMarker :=
  match JPGMarker.make "SOI - Start Of Image" 65496 buf with
  | .error e => .error e
  | .ok m => .ok { m with length := 2 }

/-- `JPEG_EOIMarker` constructor (src/unnamed/part_002 lines 27-36): same shape
as SOI with code 0xFFD9. -/
def JPEG_EOIMarker.make (buf : List Nat) : Except JSErr JPGMarker :=
  match JPGMarker.make "EOI - End Of Image" 65497 buf with
  | .error e => .error e
  | .ok m => .ok { m with length := 2 }

/-- The view of a `JPG_TableMarker` that `TableMarkerAggregator` consumes:
its `identifier` getter and its `markerLength` getter, plus the raw slice the
sub-table was constructed from (so distinct constructions are
distinguishable, as distinct objects are in JavaScript). -/
structure TableMarkerView where
  identifier : Int
  markerLength : Int
  raw : List Nat
  deriving DecidableEq, Repr

/-- `this.markers[key] = value` on a `Record<number, T>`: replaces the entry
at an existing key in place, otherwise appends a new entry. -/
def recordSet (m : List (Int × TableMarkerView)) (k : Int) (v : TableMarkerView) :
    List (Int × TableMarkerView) :=
  if (m.map Prod.fst).contains k then
    m.map (fun p => if p.1 = k then (k, v) else p)
  else m ++ [(k, v)]

/-- `this.markers[key]` lookup on the record. -/
def recordGet (m : List (Int × TableMarkerView)) (k : Int) : Option TableMarkerView :=
  (m.find? (fun p => p.1 == k)).map Prod.snd

/-- `Buffer.subarray(begin)`: a negative begin counts from the end of the
buffer (clamped at 0); a begin past the end yields an empty slice. -/
def subarray (l : List Nat) (start : Int) : List Nat :=
  if start < 0 then l.drop ((l.length : Int) + start).toNat
  else l.drop start.toNat

/-- The mutable state of a `TableMarkerAggregator`: the record of markers and
the `size` counter (`protected size = 0`). -/
structure AggState where
  markers : List (Int × TableMarkerView) := []
  size : Int := 0
  deriving DecidableEq, Repr

/-- The `while (length > 0)` loop of `addMarker` (src/src/jpeg/markers/base.ts
lines 114-121), fuel-indexed (none = the loop is still running after `fuel`
iterations):

    while (length > 0) {
      const marker = new this.markerConstructor(start_buffer);
      this.markers[marker.identifier] = marker;
      this.size++;
      length -= marker.markerLength - 4;
      current_pos = current_pos + marker.markerLength - 4;
      start_buffer = bbuffer.subarray(current_pos)
    }

The injected constructor is abstracted as `ctor`. -/
def TableMarkerAggregator.addMarkerLoop (ctor : List Nat → TableMarkerView)
    (bbuffer : List Nat) :
    Nat → List (Int × TableMarkerView) → Int → Int → Int →
    Option (List (Int × TableMarkerView) × Int × Int)
  | 0, markers, size, length, current_pos =>
    if length > 0 then none else some (markers, size, current_pos)
  | Nat.succ k, markers, size, length, current_pos =>
    if length > 0 then
      let marker := ctor (subarray bbuffer current_pos)
      TableMarkerAggregator.addMarkerLoop ctor bbuffer k
        (recordSet markers marker.identifier marker) (size + 1)
        (length - (marker.markerLength - 4))
        (current_pos + (marker.markerLength - 4))
    else some (markers, size, current_pos)

/-- `TableMarkerAggregator.addMarker(buffer)` (src/src/jpeg/markers/base.ts
lines 107-124): reads the declared segment length at offset 2 via the
overridden `readUInt16BE`, subtracts 2, then runs the sub-table loop starting
at `current_pos = 4`. Result: error = a thrown exception; ok none = the loop
did not finish within `fuel` iterations; ok (some (state, pos)) = the loop
finished, returning the new aggregator state and the consumed length. -/
def TableMarkerAggregator.addMarker (ctor : List Nat → TableMarkerView)
    (buffer : List Nat) (st : AggState) (fuel : Nat) :
    Except JSErr (Option (AggState × Int)) :=
  let bbuffer := BitStream.fromBytes buffer
  match bbuffer.readUInt16BE (some 2) with
  | .error e => .error e
  | .ok (v, _) =>
    .ok ((TableMarkerAggregator.addMarkerLoop ctor buffer fuel
            st.markers st.size (v - 2) 4).map
          (fun r => ({ markers := r.1, size := r.2.1 }, r.2.2)))

/-- `nofMarkers` getter: `return this.size`. -/
def TableMarkerAggregator.nofMarkers (st : AggState) : Int := st.size

/-- `getMarker(identifier)`: NoSuchRecordKey when the identifier is not a key
of the record. -/
def TableMarkerAggregator.getMarker (st : AggState) (identifier : Int) :
    Except JSErr TableMarkerView :=
  match recordGet st.markers identifier with
  | some m => .ok m
  | none => .error .noSuchRecordKey

/-- `class HuffmanNode` (src/unnamed/part_002 lines 139-206): left child,
right child (spelled `rigth` in the source), and an optional symbol. `none`
models both `null` and `undefined`. -/
inductive HuffmanNode where
  | node (left : Option HuffmanNode) (rigth : Option HuffmanNode) (symbol : Option Int)

/-- The freshly constructed node `new HuffmanNode()`. -/
def HuffmanNode.empty : HuffmanNode := .node none none none

/-- Field accessor for the node symbol. -/
def HuffmanNode.symbol : HuffmanNode → Option Int
  | .node _ _ s => s

/-- JavaScript truthiness of a `number | null | undefined` value: `null`,
`undefined` and `0` are falsy, any other number is truthy. -/
def jsTruthyNum : Option Int → Bool
  | none => false
  | some v => decide (v ≠ 0)

/-- `validateInput(bit)`: InvalidInput unless `bit` is 0 or 1. -/
def validateInput (bit : Int) : Except JSErr Unit :=
  if bit < 0 ∨ bit > 1 then .error .invalidInput else .ok ()

/-- `HuffmanNode.setSymbol(symbol)` (src/unnamed/part_002 lines 186-193):

    if (this.symbol) throw AlreadyExists;
    this.symbol = symbol;

The guard is a truthiness test on the current symbol. The argument is an
`Option Int` because `buildHuffmanTree` can pass `undefined` (an
out-of-bounds `symbols` element). -/
def HuffmanNode.setSymbol : HuffmanNode → Option Int → Except JSErr HuffmanNode
  | .node l r s, sym =>
    if jsTruthyNum s then .error .alreadyExists else .ok (.node l r sym)

/-- `HuffmanNode.getNextNode(bit)`: validates the bit, then returns the 0- or
1-child (possibly null). -/
def HuffmanNode.getNextNode : HuffmanNode → Int → Except JSErr (Option HuffmanNode)
  | .node l r _, bit =>
    match validateInput bit with
    | .error e => .error e
    | .ok _ => if bit = 0 then .ok l else .ok r

/-- `isLeaf()`: `return this.symbol != null` (loose inequality: false exactly
for `null` and `undefined`; a symbol 0 does count as a leaf). -/
def HuffmanNode.isLeaf (n : HuffmanNode) : Bool := n.symbol.isSome

/-- The inner walk of `buildHuffmanTree` (src/unnamed/part_002 lines 259-265)
rendered functionally: for each bit, `setNextNode(bit)` (validates the bit and
creates the missing child) then descend, and at the end of the bit path
`setSymbol(curr_symbol)`. -/
def HuffmanNode.insertPath : HuffmanNode → List Int → Option Int → Except JSErr HuffmanNode
  | n, [], sym => n.setSymbol sym
  | .node l r s, bit :: rest, sym =>
    match validateInput bit with
    | .error e => .error e
    | .ok _ =>
      if bit = 0 then
        match HuffmanNode.insertPath (l.getD HuffmanNode.empty) rest sym with
        | .error e => .error e
        | .ok c => .ok (.node (some c) r s)
      else
        match HuffmanNode.insertPath (r.getD HuffmanNode.empty) rest sym with
        | .error e => .error e
        | .ok c => .ok (.node l (some c) s)

/-- JavaScript `x >> i` for the values arising here: arithmetic right shift,
i.e. floor division by 2^i. -/
def jsShr (x : Int) (i : Nat) : Int := Int.fdiv x (2 ^ i)

/-- The bit path of a code, most significant bit first, as produced by
`for (let i = bit_len - 1; i > -1; i--) { const bit = (curr_code >> i) & 1; }`. -/
def bitsOfCode (code : Int) (len : Nat) : List Int :=
  ((List.range len).reverse).map (fun i => (jsShr code i).emod 2)

/-- `JPEGHuffmanTree.generateCodes(bits)` (src/unnamed/part_002 lines
220-238): for each bit count, push `bit_count` consecutive code values when
the count is positive, else push the sentinel -1; after each length the
running code is left-shifted by one (`curr_code <<= 1`, a 32-bit op). -/
def generateCodesLoop : List Int → Int → List Int
  | [], _ => []
  | c :: rest, cur =>
    if c > 0 then
      ((List.range c.toNat).map (fun k => cur + (k : Int))) ++
        generateCodesLoop rest (toInt32 ((cur + c) * 2))
    else
      (-1) :: generateCodesLoop rest (toInt32 (cur * 2))

/-- `generateCodes` starting from `curr_code = 0`. -/
def generateCodes (bits : List Int) : List Int := generateCodesLoop bits 0

/-- `this.codes[i]` as used in shifts: an out-of-bounds read is `undefined`,
and `(undefined >> i) & 1` evaluates to 0, so the default is 0. -/
def codeAt (codes : List Int) (i : Int) : Int :=
  if i < 0 then 0 else (codes.get? i.toNat).getD 0

/-- `this.symbols[i]`: an out-of-bounds read is `undefined` (none). -/
def symAt (symbols : List Int) (i : Int) : Option Int :=
  if i < 0 then none else symbols.get? i.toNat

/-- The `for (let counter = 0; ...)` loop of `buildHuffmanTree`
(src/unnamed/part_002 lines 254-267): note both the code and the symbol are
read at index `codes_index + counter` (the separately maintained
`symbols_index` is never used). -/
def buildInner (codes symbols : List Int) (ci : Int) (len : Nat) :
    HuffmanNode → Int → Nat → Except JSErr HuffmanNode
  | root, _, 0 => .ok root
  | root, counter, Nat.succ k =>
    match root.insertPath (bitsOfCode (codeAt codes (ci + counter)) len)
            (symAt symbols (ci + counter)) with
    | .error e => .error e
    | .ok root' => buildInner codes symbols ci len root' (counter + 1) k

/-- The outer loop of `buildHuffmanTree` (src/unnamed/part_002 lines
244-271): a zero bit count advances `codes_index` past the sentinel;
otherwise the inner loop adds `bits[bits_idx]` codes of bit length
`bits_idx + 1`, then `codes_index += bits[bits_idx]`. -/
def buildOuter (codes symbols : List Int) :
    HuffmanNode → List Int → Nat → Int → Except JSErr HuffmanNode
  | root, [], _, _ => .ok root
  | root, c :: rest, bitsIdx, ci =>
    if c = 0 then buildOuter codes symbols root rest (bitsIdx + 1) (ci + 1)
    else
      match buildInner codes symbols ci (bitsIdx + 1) root 0 c.toNat with
      | .error e => .error e
      | .ok root' => buildOuter codes symbols root' rest (bitsIdx + 1) (ci + c)

/-- `JPEGHuffmanTree.buildTree(bits, symbols)`: generate the codes, then build
the tree from the empty root. -/
def JPEGHuffmanTree.buildTree (bits symbols : List Int) : Except JSErr HuffmanNode :=
  buildOuter (generateCodes bits) symbols HuffmanNode.empty bits 0 0

/-- Modelled from the spec: `BitGenerator(code, true)` (imported from
src/utils/bitutil.ts, which is absent from src/). Per the spec, `decode`
"decomposes the integer `code` into its bit sequence (most-significant bit
first)": the binary digits of `code`, MSB first (empty for 0, which has no
binary digits). Computed over the 53-bit safe-integer window with the
leading zeros stripped. -/
def BitGenerator (code : Int) : List Int :=
  (bitsOfCode code 53).dropWhile (fun b => b == 0)

/-- The walk of `decode` (src/unnamed/part_002 lines 300-310): follow each
bit; a missing child returns null ("no match"); at the end a non-leaf node
returns null, a leaf returns its symbol. -/
def decodeWalk : HuffmanNode → List Int → Except JSErr (Option Int)
  | n, [] => .ok (if n.isLeaf then n.symbol else none)
  | n, b :: rest =>
    match n.getNextNode b with
    | .error e => .error e
    | .ok none => .ok none
    | .ok (some child) => decodeWalk child rest

/-- `JPEGHuffmanTree.decode(code)`: walk the tree along `BitGenerator(code)`. -/
def JPEGHuffmanTree.decode (root : HuffmanNode) (code : Int) :
    Except JSErr (Option Int) :=
  decodeWalk root (BitGenerator code)

/-- The mutable locals of `ToZigZag` (src/unnamed/part_000): the log of cell
writes performed so far (newest first; a JavaScript array accepts a write at
any column index of an existing row, so writes are logged unconditionally
once the row exists), plus direction, element_idx, drop_down_cnt,
drop_down_flag, curr_position and last_curr_pos. -/
structure ZZState where
  writes : List ((Int × Int) × Option Int)
  direction : Int
  element_idx : Int
  drop_down_cnt : Int
  drop_down_flag : Int
  curr : Int × Int
  last : Int × Int
  deriving DecidableEq, Repr

/-- `values[i]`: `undefined` (none) when the index is out of bounds. -/
def valueAt (values : List Int) (i : Int) : Option Int :=
  if i < 0 then none else values.get? i.toNat

/-- `zigzag[r][c] = v`: the matrix has rows 0..nr-1 only; `zigzag[r]` for any
other `r` is `undefined`, and assigning to an element of `undefined` throws a
TypeError. A write into an existing row succeeds for every column index
(columns outside 0..nc-1 become expando properties / extend the row). -/
def zzWrite (nr : Int) (writes : List ((Int × Int) × Option Int)) (r c : Int)
    (v : Option Int) : Except JSErr (List ((Int × Int) × Option Int)) :=
  if 0 ≤ r ∧ r < nr then .ok (((r, c), v) :: writes) else .error .typeError

/-- The inner diagonal loop of `ToZigZag` (src/unnamed/part_000 lines 62-68):

    for (let idx = 0; idx < diag_sum + 1 - drop_down_flag * drop_down_cnt; idx++) {
      const [r, c] = curr_position;
      zigzag[r][c] = values[element_idx];
      element_idx++;
      last_curr_pos = curr_position;
      curr_position = [curr_position[0] - direction, curr_position[1] + direction];
    }

The fuel is the (clamped) iteration count. -/
def zzInner (nr : Int) (values : List Int) : ZZState → Nat → Except JSErr ZZState
  | st, 0 => .ok st
  | st, Nat.succ k =>
    match zzWrite nr st.writes st.curr.1 st.curr.2 (valueAt values st.element_idx) with
    | .error e => .error e
    | .ok w =>
      zzInner nr values
        { st with writes := w, element_idx := st.element_idx + 1, last := st.curr,
                  curr := (st.curr.1 - st.direction, st.curr.2 + st.direction) } k

/-- The outer diagonal loop of `ToZigZag` (src/unnamed/part_000 lines 47-77):
raise the drop-down flag past the minimum dimension; move the start cell
right or down according to `((direction > 0) as any) ^ drop_down_flag`; run
the inner loop for `diag_sum + 1 - drop_down_flag * drop_down_cnt`
iterations; set `direction = (-1) ** (diag_sum + 1)`; grow `drop_down_cnt` by
2 past the minimum dimension; reset `curr_position = last_curr_pos`. -/
def zzOuter (nr : Int) (values : List Int) (minDim : Int) :
    ZZState → Int → Nat → Except JSErr ZZState
  | st, _, 0 => .ok st
  | st, d, Nat.succ k =>
    let flag' : Int := if d > minDim ∧ st.drop_down_flag = 0 then 1 else st.drop_down_flag
    let goRight : Bool := Bool.xor (decide (st.direction > 0)) (decide (flag' ≠ 0))
    let curr1 : Int × Int :=
      if goRight then (st.curr.1, st.curr.2 + 1) else (st.curr.1 + 1, st.curr.2)
    let count : Int := d + 1 - flag' * st.drop_down_cnt
    match zzInner nr values { st with drop_down_flag := flag', curr := curr1 } count.toNat with
    | .error e => .error e
    | .ok st' =>
      let dir' : Int := if (d + 1).emod 2 = 0 then 1 else -1
      let cnt' : Int := if d > minDim then st'.drop_down_cnt + 2 else st'.drop_down_cnt
      zzOuter nr values minDim
        { st' with direction := dir', drop_down_cnt := cnt', curr := st'.last } (d + 1) k

/-- `ToZigZag(values, nr, nc)` (src/unnamed/part_000 lines 19-80):
InvalidDimension check, `min_dimension = min(nr-1, nc-1)`,
`drop_down_cnt = min_dimension % 2 === 0 ? 1 : 2`, the initial write
`zigzag[0][0] = values[0]`, then the diagonal loop
`for (diag_sum = 0; diag_sum < (nr-1)+(nc-1)+1; diag_sum++)`. The result is
the write log (the claims only concern runs that end in an error, so the
final matrix extraction is not needed). -/
def ToZigZag (values : List Int) (nr nc : Int) :
    Except JSErr (List ((Int × Int) × Option Int)) :=
  if (values.length : Int) ≠ nr * nc then .error .invalidDimension
  else
    let minDim := min (nr - 1) (nc - 1)
    let cnt0 : Int := if minDim.emod 2 = 0 then 1 else 2
    match zzWrite nr [] 0 0 (valueAt values 0) with
    | .error e => .error e
    | .ok w0 =>
      let st0 : ZZState :=
        { writes := w0, direction := -1, element_idx := 0, drop_down_cnt := cnt0,
          drop_down_flag := 0, curr := (0, 0), last := (0, 0) }
      match zzOuter nr values minDim st0 0 (nr + nc - 1).toNat with
      | .error e => .error e
      | .ok st => .ok st.writes

/-- Concrete instantiation of the aggregator's injected constructor used for
the sub-table scenario: a sub-table reads its destination slot (used as its
`identifier`) from byte 0 of its slice and its self-reported `markerLength`
from byte 1, and keeps the slice it was built from. -/
def ctorScenario (s : List Nat) : TableMarkerView :=
  { identifier := (((s.get? 0).getD 0 : Nat) : Int),
    markerLength := (((s.get? 1).getD 0 : Nat) : Int),
    raw := s }

/-- Concrete constructor whose sub-tables always report `markerLength = 5`
(the smallest value that makes the remaining length strictly decrease). -/
def ctorFive (s : List Nat) : TableMarkerView :=
  { identifier := 0, markerLength := 5, raw := s }

/-- Concrete constructor whose sub-tables always report `markerLength = 4`:
the remaining length and the position never change. -/
def ctorFour (s : List Nat) : TableMarkerView :=
  { identifier := 0, markerLength := 4, raw := s }

/-- Concrete constructor for the termination counterexample: the sub-table at
the initial slice (length 6 here) reports `markerLength = 3`, every later one
reports 100. -/
def ctorSmallThenBig (s : List Nat) : TableMarkerView :=
  { identifier := 0, markerLength := if s.length = 6 then 3 else 100, raw := s }

/-- The aggregator state after feeding the segment
`[255,196,0,8, 0,6, 1,6, 0,6]` (declared length 8, i.e. 6 sub-table bytes:
three 2-byte sub-tables with identifiers 0, 1, 0) through `addMarker` with
`ctorScenario`: two record entries but `size = 3`. -/
def aggAfterScenario : AggState :=
  { markers := [(0, { identifier := 0, markerLength := 6, raw := [0, 6] }),
                (1, { identifier := 1, markerLength := 6, raw := [1, 6, 0, 6] })],
    size := 3 }

/- ------------------------------------------------------------------ -/
/- Theorems.                                                          -/
/- ------------------------------------------------------------------ -/

/-- Claim C1 (code bug): the claim says a BitReader over `n` bytes yields
exactly `8n` bits, MSB first, with the `(8n+1)`-th read failing OutOfBounds.
The code starts reading at byte index 1 (`this.position++` from the initial
`position = 0` before the first load) and checks `position + 1 >= length`,
so it yields the bits of bytes `1..n-1` only — `8(n-1)` bits. Evaluated here:
a 1-byte sequence fails on the very first `getNextBit` (claim: the first 8
succeed), and a 2-byte sequence `[18, 171]` yields exactly the 8 bits of byte
171 (byte 18 is never read) before the 9th read fails. -/
theorem c1_bitreader_first_read_fails :
    BitStream.readBits (BitStream.fromBytes [171]) 1 = .error .indexOverflow ∧
    BitStream.readBits (BitStream.fromBytes [18, 171]) 8 = .ok [1, 0, 1, 0, 1, 0, 1, 1] ∧
    BitStream.readBits (BitStream.fromBytes [18, 171]) 9 = .error .indexOverflow :=
  ⟨rfl, rfl, rfl⟩

/-- Claim C2 (code bug): the claim says `nofMarkers` equals the number of
distinct occupied slots (2 after sub-tables at destinations 0, 1, 0). The
code increments `this.size++` on every loop iteration, including overwrites,
so after the three-sub-table segment the record holds the expected two
entries (slot 0 last-write-wins: it holds the third sub-table, raw `[0,6]`),
yet `nofMarkers` reports 3. -/
theorem c2_aggregator_counts_insertions :
    TableMarkerAggregator.addMarker ctorScenario [255, 196, 0, 8, 0, 6, 1, 6, 0, 6] {} 8 =
      .ok (some (aggAfterScenario, 10)) ∧
    aggAfterScenario.markers.map Prod.fst = [0, 1] ∧
    TableMarkerAggregator.getMarker aggAfterScenario 0 =
      .ok { identifier := 0, markerLength := 6, raw := [0, 6] } ∧
    TableMarkerAggregator.nofMarkers aggAfterScenario = 3 :=
  ⟨rfl, rfl, rfl, rfl⟩

/-- Claim C3 (code bug): the claim says `buildTree(bits=[0,1], symbols=[5])`
followed by `decode` of the assigned 2-bit code (value 0) returns 5. The
build loop reads the symbol at `this.symbols[codes_index + counter]`, but
`codes_index` also counts the `-1` sentinels pushed for lengths with zero
codes, so here it reads `symbols[1]` — `undefined` — and the terminal node
gets no symbol (`symbols_index`, the correct counter, is maintained but never
used). `decode` of the assigned code therefore returns null ("no match"),
not 5. The last conjunct shows decode works when no zero-count length
precedes, isolating the mis-indexing. -/
theorem c3_huffman_symbol_misindexed :
    generateCodes [0, 1] = [-1, 0] ∧
    (JPEGHuffmanTree.buildTree [0, 1] [5]).map (fun r => JPEGHuffmanTree.decode r 0) =
      .ok (.ok none) ∧
    (JPEGHuffmanTree.buildTree [0, 1] [5]).map (fun r => decodeWalk r [0, 0]) =
      .ok (.ok none) ∧
    (JPEGHuffmanTree.buildTree [2] [5, 7]).map (fun r => JPEGHuffmanTree.decode r 1) =
      .ok (.ok (some 7)) :=
  ⟨rfl, rfl, rfl, rfl⟩

/-- Claim C4 (code bug): the claim says SOI/EOI construction succeeds with
`length == 2` for every buffer size. For a buffer of exactly 4 bytes the base
constructor takes the `length >= 4` branch and calls `readUInt16BE(2)`, whose
bounds check `curr_position + n >= this.length` (4 >= 4) throws
BufferOverflow, so construction fails. Every other size succeeds with
length 2. -/
theorem c4_soi_eoi_four_byte_buffer_fails :
    JPEG_SOIMarker.make [255, 216, 0, 4] = .error .bufferOverflow ∧
    (JPEG_SOIMarker.make [255, 216, 0]).map (fun m => m.length) = .ok 2 ∧
    (JPEG_SOIMarker.make [255, 216, 0, 4, 99]).map (fun m => m.length) = .ok 2 ∧
    JPEG_EOIMarker.make [255, 217, 0, 4] = .error .bufferOverflow :=
  ⟨rfl, rfl, rfl, rfl⟩

/-- Claim C5 counterexample: the claim says that when the offset argument is
supplied — including offset = 0 — the cursor is unchanged. With offset 0 the
truthiness test `offset ? this.position : this.position + n` takes the false
branch: `readBytes(1, 0)` on a fresh stream reads byte 0 but moves the cursor
to 1, not 0 as the claim requires. -/
theorem c5_offset_zero_advances_counterexample :
    (((BitStream.fromBytes [7, 8, 9, 10, 11, 12]).readBytes 1 (some 0) false).map
        (fun p => (p.1, p.2.position)) = .ok (7, 1)) ∧
    ¬ (((BitStream.fromBytes [7, 8, 9, 10, 11, 12]).readBytes 1 (some 0) false).map
        (fun p => p.2.position) = .ok (BitStream.fromBytes [7, 8, 9, 10, 11, 12]).position) := by
  constructor
  · rfl
  · intro h
    rw [show ((BitStream.fromBytes [7, 8, 9, 10, 11, 12]).readBytes 1 (some 0) false).map
          (fun p => p.2.position) = .ok 1 from rfl] at h
    exact one_ne_zero (Except.ok.inj h)

/-- Claim C5 (amended): for every in-bounds `readBytes(n, offset)` call, the
new cursor position follows JavaScript truthiness: it is unchanged exactly
when a nonzero offset was supplied, and advances by `n` when the offset was
omitted or equal to 0 (`jsPositionUpdate`, the literal line-110 update).
`readUInt8` and `readUInt16BE` delegate to `readBytes` with n = 1 and n = 2,
so the same rule governs them. -/
theorem c5_readBytes_position_update (st : BitStream) (n : Int) (offset : Option Int)
    (le : Bool) (v : Int) (st' : BitStream)
    (h : st.readBytes n offset le = .ok (v, st')) :
    st'.position = jsPositionUpdate offset st.position n := by
  simp only [BitStream.readBytes] at h
  split at h
  · exact absurd h (by simp)
  · split at h
    · exact absurd h (by simp)
    · simp only [Except.ok.injEq, Prod.mk.injEq] at h
      rw [← h.2]

/-- Witness for C5: the theorem applied at `readBytes 1 (some 1)` on
`[7,8,9]`, a supplied nonzero offset, whose result state keeps position 0. -/
theorem c5_readBytes_position_update_witness :
    ((BitStream.fromBytes [7, 8, 9]).readBytes 1 (some 1) false =
      .ok (8, { data := [7, 8, 9], position := 0, currByte := 0, byteCounter := 0 })) ∧
    ({ data := [7, 8, 9], position := 0, currByte := 0, byteCounter := 0 } : BitStream).position =
      jsPositionUpdate (some 1) (BitStream.fromBytes [7, 8, 9]).position 1 :=
  ⟨rfl, c5_readBytes_position_update (BitStream.fromBytes [7, 8, 9]) 1 (some 1) false 8 _ rfl⟩

/-- Claim C6 (code bug): the claim says `readBytes` fails with BufferOverflow
iff the requested range exceeds the sequence bounds, so an exact-fit read
(range ending at the last byte) succeeds — and the spec's own round-trip
scenario reads `[0x01, 0x02]` big-endian as 258. The code's check is
`curr_position + n >= this.length`, which also rejects exact fits: reading
both bytes of `[1,2]` throws, the same read on `[1,2,99]` (one spare byte)
returns 258, and the in-bounds suffix read at offset 1 of `[1,2,99]` throws
as well. -/
theorem c6_exact_fit_read_rejected :
    (BitStream.fromBytes [1, 2]).readBytes 2 none false = .error .bufferOverflow ∧
    ((BitStream.fromBytes [1, 2, 99]).readBytes 2 none false).map Prod.fst = .ok 258 ∧
    (BitStream.fromBytes [1, 2, 99]).readBytes 2 (some 1) false = .error .bufferOverflow :=
  ⟨rfl, rfl, rfl⟩

/-- Claim C7 (code bug): the claim (and the function's own doc comment)
says `toMatrix([1..12], rows=3, cols=4)` returns
`[[1,2,6,7],[3,5,8,11],[4,9,10,12]]`. The traversal leaves `(0,0)` after the
initial write and walks diagonal 1 down-left from `(2,0)` to `(3,-1)`; row 3
does not exist in a 3-row matrix, so `zigzag[3][-1] = ...` assigns into
`undefined` and the call throws a TypeError instead of returning a matrix. -/
theorem c7_tozigzag_doc_example_crashes :
    ToZigZag [1, 2, 3, 4, 5, 6, 7, 8, 9, 10, 11, 12] 3 4 = .error .typeError :=
  rfl

/-- Claim C8 (code bug): the claim says that for every rows, cols and vector
of matching length, flattening `toMatrix`'s result in zigzag order reproduces
the input. `toMatrix` throws a TypeError on these shapes (1x1 and 2x2 crash
on the first diagonals, the JPEG-standard 8x8 on diagonal 7), so there is no
matrix to flatten and the left-inverse property fails. -/
theorem c8_tozigzag_not_left_inverse :
    ToZigZag [1] 1 1 = .error .typeError ∧
    ToZigZag [1, 2, 3, 4] 2 2 = .error .typeError ∧
    ToZigZag ((List.range 64).map (fun n => (n : Int) + 1)) 8 8 = .error .typeError :=
  ⟨rfl, rfl, rfl⟩

/-- Claim C9 counterexample: the claim says a second `setSymbol` on a node
that already carries a symbol fails with SymbolAlreadySet regardless of the
first value. The guard is `if (this.symbol)`, a truthiness test, so after
`setSymbol(0)` a second `setSymbol(7)` succeeds and overwrites the 0. -/
theorem c9_zero_symbol_overwritten_counterexample :
    HuffmanNode.setSymbol HuffmanNode.empty (some 0) = .ok (.node none none (some 0)) ∧
    HuffmanNode.setSymbol (.node none none (some 0)) (some 7) =
      .ok (.node none none (some 7)) ∧
    ¬ (HuffmanNode.setSymbol (.node none none (some 0)) (some 7) =
        .error .alreadyExists) := by
  refine ⟨rfl, rfl, ?_⟩
  intro h
  rw [show HuffmanNode.setSymbol (.node none none (some 0)) (some 7) =
        .ok (.node none none (some 7)) from rfl] at h
  exact Except.noConfusion h

/-- Claim C9 (amended): `setSymbol` fails with SymbolAlreadySet exactly when
the node's current symbol is truthy (present and nonzero); when the current
symbol is absent, `undefined`, or 0, the call succeeds and overwrites it. -/
theorem c9_setSymbol_truthiness_guard :
    (∀ (l r : Option HuffmanNode) (s v : Option Int),
       jsTruthyNum s = true →
       HuffmanNode.setSymbol (.node l r s) v = .error .alreadyExists) ∧
    (∀ (l r : Option HuffmanNode) (s v : Option Int),
       jsTruthyNum s = false →
       HuffmanNode.setSymbol (.node l r s) v = .ok (.node l r v)) := by
  constructor <;> (intro l r s v h; simp [HuffmanNode.setSymbol, h])

/-- Witness for C9: the theorem applied with a truthy prior symbol 5 (second
set fails) and with a falsy prior symbol 0 (second set succeeds). -/
theorem c9_setSymbol_truthiness_guard_witness :
    jsTruthyNum (some 5) = true ∧
    HuffmanNode.setSymbol (.node none none (some 5)) (some 7) = .error .alreadyExists ∧
    jsTruthyNum (some 0) = false ∧
    HuffmanNode.setSymbol (.node none none (some 0)) (some 9) = .ok (.node none none (some 9)) :=
  ⟨rfl, c9_setSymbol_truthiness_guard.1 none none (some 5) (some 7) rfl,
   rfl, c9_setSymbol_truthiness_guard.2 none none (some 0) (some 9) rfl⟩

/-- Helper for C10: when every constructed sub-table reports
`markerLength >= 5`, each iteration decreases the remaining length by
`markerLength - 4 >= 1`, so fuel equal to the remaining length makes the
`while (length > 0)` loop finish. -/
theorem addMarkerLoop_isSome_of_minlen (ctor : List Nat → TableMarkerView)
    (bbuffer : List Nat) (hctor : ∀ s, 5 ≤ (ctor s).markerLength) :
    ∀ (fuel : Nat) (markers : List (Int × TableMarkerView)) (size length pos : Int),
      length.toNat ≤ fuel →
      (TableMarkerAggregator.addMarkerLoop ctor bbuffer fuel markers size length pos).isSome
        = true := by
  intro fuel
  induction fuel with
  | zero =>
    intro markers size length pos hlen
    have h0 : ¬ (length > 0) := by omega
    simp [TableMarkerAggregator.addMarkerLoop, h0]
  | succ k ih =>
    intro markers size length pos hlen
    by_cases h0 : length > 0
    · have h5 := hctor (subarray bbuffer pos)
      simp only [TableMarkerAggregator.addMarkerLoop, h0, if_true]
      exact ih _ _ _ _ (by omega)
    · simp [TableMarkerAggregator.addMarkerLoop, h0]

/-- Helper for C10: if the sub-table constructed at the current position
reports `markerLength = 4`, the remaining length and the position never
change, so the loop runs forever (returns none for every fuel). -/
theorem addMarkerLoop_none_of_fixpoint (ctor : List Nat → TableMarkerView)
    (bbuffer : List Nat) :
    ∀ (fuel : Nat) (markers : List (Int × TableMarkerView)) (size length pos : Int),
      0 < length → (ctor (subarray bbuffer pos)).markerLength = 4 →
      TableMarkerAggregator.addMarkerLoop ctor bbuffer fuel markers size length pos
        = none := by
  intro fuel
  induction fuel with
  | zero =>
    intro markers size length pos h0 h4
    simp [TableMarkerAggregator.addMarkerLoop, h0]
  | succ k ih =>
    intro markers size length pos h0 h4
    simp only [TableMarkerAggregator.addMarkerLoop, h0, if_true, h4]
    have e4 : (4 : Int) - 4 = 0 := by norm_num
    rw [e4, sub_zero, add_zero]
    exact ih _ _ _ _ h0 h4

/-- Claim C10 (amended): the `addMarker` loop terminates whenever every
constructed sub-table reports `markerLength >= 5` (fuel equal to the
remaining declared length suffices, as each iteration strictly decreases it);
and if the sub-table constructed at the current position reports
`markerLength` exactly 4, the loop state repeats and it never terminates. A
sub-table with `markerLength <= 4` alone does not force non-termination
(see the counterexample theorem). -/
theorem c10_addMarker_termination :
    (∀ (ctor : List Nat → TableMarkerView) (bbuffer : List Nat) (fuel : Nat)
       (markers : List (Int × TableMarkerView)) (size length pos : Int),
       (∀ s, 5 ≤ (ctor s).markerLength) → length.toNat ≤ fuel →
       (TableMarkerAggregator.addMarkerLoop ctor bbuffer fuel markers size length pos).isSome
         = true) ∧
    (∀ (ctor : List Nat → TableMarkerView) (bbuffer : List Nat) (fuel : Nat)
       (markers : List (Int × TableMarkerView)) (size length pos : Int),
       0 < length → (ctor (subarray bbuffer pos)).markerLength = 4 →
       TableMarkerAggregator.addMarkerLoop ctor bbuffer fuel markers size length pos
         = none) :=
  ⟨fun ctor bb fuel m s l p hc hl => addMarkerLoop_isSome_of_minlen ctor bb hc fuel m s l p hl,
   fun ctor bb fuel m s l p h0 h4 => addMarkerLoop_none_of_fixpoint ctor bb fuel m s l p h0 h4⟩

/-- Witness for C10: the theorem's first part applied to `ctorFive`
(every sub-table reports length 5; remaining length 3, fuel 3) and its second
part applied to `ctorFour` (the current sub-table reports length 4; the loop
returns none at fuel 7). -/
theorem c10_addMarker_termination_witness :
    (∀ s, 5 ≤ (ctorFive s).markerLength) ∧
    ((3 : Int).toNat ≤ 3) ∧
    (TableMarkerAggregator.addMarkerLoop ctorFive [255, 196, 0, 5, 9, 9, 9] 3 [] 0 3 4).isSome
      = true ∧
    ((0 : Int) < 2) ∧
    (ctorFour (subarray [255, 196, 0, 4, 9, 9] 4)).markerLength = 4 ∧
    TableMarkerAggregator.addMarkerLoop ctorFour [255, 196, 0, 4, 9, 9] 7 [] 0 2 4 = none :=
  ⟨fun s => le_refl 5,
   by decide,
   c10_addMarker_termination.1 ctorFive [255, 196, 0, 5, 9, 9, 9] 3 [] 0 3 4
     (fun s => le_refl 5) (by decide),
   by decide,
   rfl,
   c10_addMarker_termination.2 ctorFour [255, 196, 0, 4, 9, 9] 7 [] 0 2 4
     (by decide) rfl⟩

/-- Claim C10 counterexample: the claim says a constructed sub-table with
`markerLength <= 4` makes the loop non-terminating. With `ctorSmallThenBig`
the first constructed sub-table reports `markerLength = 3` (≤ 4, and the
remaining length grows from 2 to 3 at that iteration), yet the next sub-table
reports 100, the remaining length drops below 0, and `addMarker` returns:
the loop terminates after two iterations with consumed position 99. -/
theorem c10_small_subtable_terminates_counterexample :
    (ctorSmallThenBig (subarray [255, 196, 0, 4, 9, 9, 9, 9, 9, 9] 4)).markerLength = 3 ∧
    TableMarkerAggregator.addMarker ctorSmallThenBig [255, 196, 0, 4, 9, 9, 9, 9, 9, 9] {} 5 =
      .ok (some ({ markers :=
                    [(0, { identifier := 0, markerLength := 100, raw := [4, 9, 9, 9, 9, 9, 9] })],
                   size := 2 }, 99)) :=
  ⟨rfl, rfl⟩

end TSpeg
